import Mathlib

/-!
Verification development for the windows-process-bandwidth-limiter repository.

Shallow embedding conventions:
* Python floats (wall-clock times, token counts, rates) are modelled as
  rationals; `time.time()` values are passed explicitly as a `now` argument.
* A blocking `time.sleep(d)` inside `BandwidthLimiter.throttle` is modelled by
  returning the slept duration alongside the new state; the wall clock is
  assumed to advance by exactly that duration during the sleep.
* The per-packet pipeline (`NetworkThrottler._process_packet`) is modelled as a
  state transformer that additionally emits a trace of observable events
  (rate-limiter calls, latency sleeps, packet forwards, status reports).
-/

namespace ThrottlerModel

/-- State of `BandwidthLimiter` (src/src/utils/bandwidth_limiter.py).
Fields mirror the instance attributes set in `__init__`. -/
structure BandwidthLimiter where
  max_bytes_per_second : ℚ
  window_size : ℚ
  bucket_size : ℚ
  tokens : ℚ
  last_refill : ℚ
  bytes_sent : ℚ
  window_start : ℚ
  deriving DecidableEq

/-- `BandwidthLimiter.__init__(max_bytes_per_second, window_size)` called at
wall-clock time `now`: the bucket holds one second worth of data and starts
full, the sliding window starts empty at `now`. -/
def BandwidthLimiter.init (max_bytes_per_second window_size now : ℚ) :
    BandwidthLimiter :=
  { max_bytes_per_second := max_bytes_per_second
    window_size := window_size
    bucket_size := max_bytes_per_second
    tokens := max_bytes_per_second
    last_refill := now
    bytes_sent := 0
    window_start := now }

/-- `BandwidthLimiter._refill_tokens` at wall-clock time `now`. -/
def BandwidthLimiter.refill_tokens (st : BandwidthLimiter) (now : ℚ) :
    BandwidthLimiter :=
  let elapsed := now - st.last_refill
  if 0 < elapsed then
    { st with
      tokens := min st.bucket_size (st.tokens + elapsed * st.max_bytes_per_second)
      last_refill := now }
  else
    st

/-- `BandwidthLimiter._reset_window_if_needed` at wall-clock time `now`. -/
def BandwidthLimiter.reset_window_if_needed (st : BandwidthLimiter) (now : ℚ) :
    BandwidthLimiter :=
  if st.window_size ≤ now - st.window_start then
    { st with window_start := now, bytes_sent := 0 }
  else
    st

/-- `BandwidthLimiter.throttle(packet_size)` entered at wall-clock time `now`.
Returns the post-call state together with the duration slept inside the call
(0 when the call returned without blocking).  While sleeping, the wall clock
advances by exactly the slept duration, so the post-sleep `time.time()` read
that reassigns `window_start` yields `now + time_remaining`. -/
def BandwidthLimiter.throttle (st : BandwidthLimiter) (packet_size : ℚ)
    (now : ℚ) : BandwidthLimiter × ℚ :=
  let st1 := st.refill_tokens now
  let st2 := st1.reset_window_if_needed now
  if st2.max_bytes_per_second < st2.bytes_sent + packet_size then
    let time_remaining := st2.window_size - (now - st2.window_start)
    if 0 < time_remaining then
      let st3 := { st2 with window_start := now + time_remaining, bytes_sent := 0 }
      ({ st3 with bytes_sent := st3.bytes_sent + packet_size }, time_remaining)
    else
      ({ st2 with bytes_sent := st2.bytes_sent + packet_size }, 0)
  else
    ({ st2 with bytes_sent := st2.bytes_sent + packet_size }, 0)

/-- `BandwidthLimiter.can_send(packet_size)` at wall-clock time `now`:
refills tokens, then reports whether `tokens >= packet_size`.  The refilled
state is returned because `_refill_tokens` mutates the limiter. -/
def BandwidthLimiter.can_send (st : BandwidthLimiter) (packet_size : ℚ)
    (now : ℚ) : BandwidthLimiter × Bool :=
  let st1 := st.refill_tokens now
  (st1, decide (packet_size ≤ st1.tokens))

/-- `BandwidthLimiter.get_current_rate_kbps()` at wall-clock time `now`. -/
def BandwidthLimiter.get_current_rate_kbps (st : BandwidthLimiter) (now : ℚ) :
    ℚ :=
  let elapsed := now - st.window_start
  if 0 < elapsed then st.bytes_sent / elapsed / 1024 else 0

/-- `BandwidthLimiter.update_rate_limit(new_max_bytes_per_second)`. -/
def BandwidthLimiter.update_rate_limit (st : BandwidthLimiter)
    (new_max_bytes_per_second : ℚ) : BandwidthLimiter :=
  let st1 := { st with
    max_bytes_per_second := new_max_bytes_per_second
    bucket_size := new_max_bytes_per_second }
  if st1.bucket_size < st1.tokens then
    { st1 with tokens := st1.bucket_size }
  else
    st1

/-- `BandwidthLimiter.reset()` at wall-clock time `now`. -/
def BandwidthLimiter.reset (st : BandwidthLimiter) (now : ℚ) :
    BandwidthLimiter :=
  { st with
    tokens := st.bucket_size
    last_refill := now
    bytes_sent := 0
    window_start := now }

/-- The configuration fields of `ThrottlingConfig`
(src/src/config/settings.py) that the traffic-shaping pipeline reads. -/
structure ThrottlingConfig where
  packet_drop_rate : ℚ
  lag_delay_ms : ℤ
  status_update_interval : ℕ
  port_range_start : ℕ
  port_range_end : ℕ
  deriving DecidableEq

/-- `ThrottlingConfig.lag_delay_seconds`: the lag delay converted from
milliseconds to seconds. -/
def ThrottlingConfig.lag_delay_seconds (cfg : ThrottlingConfig) : ℚ :=
  (cfg.lag_delay_ms : ℚ) / 1000

/-- Counters of `ThrottlingStatistics` (src/src/utils/statistics.py). -/
structure ThrottlingStatistics where
  processed_packets : ℕ
  throttled_packets : ℕ
  dropped_packets : ℕ
  deriving DecidableEq

/-- A fresh `ThrottlingStatistics()` object: all counters start at 0. -/
def ThrottlingStatistics.fresh : ThrottlingStatistics :=
  { processed_packets := 0, throttled_packets := 0, dropped_packets := 0 }

/-- `ThrottlingStatistics.increment_processed`. -/
def ThrottlingStatistics.increment_processed (st : ThrottlingStatistics) :
    ThrottlingStatistics :=
  { st with processed_packets := st.processed_packets + 1 }

/-- `ThrottlingStatistics.increment_throttled`. -/
def ThrottlingStatistics.increment_throttled (st : ThrottlingStatistics) :
    ThrottlingStatistics :=
  { st with throttled_packets := st.throttled_packets + 1 }

/-- `ThrottlingStatistics.increment_dropped`. -/
def ThrottlingStatistics.increment_dropped (st : ThrottlingStatistics) :
    ThrottlingStatistics :=
  { st with dropped_packets := st.dropped_packets + 1 }

/-- Observable events emitted while processing one packet in
`NetworkThrottler._process_packet` (src/src/core/throttler.py):
a call into `BandwidthLimiter.throttle`, the latency-simulation sleep,
the forwarding `windivert_handle.send(packet)`, and the periodic status
report printed by `_update_status` (mode flag, the three cumulative
counters, and the instantaneous rate in KB/s). -/
inductive PacketEvent where
  | throttleCall (packet_size : ℕ)
  | sleepDelay (seconds : ℚ)
  | send
  | statusReport (throttling_active : Bool) (processed throttled dropped : ℕ)
      (rate_kbps : ℚ)
  deriving DecidableEq

/-- Whether an event is the periodic status report. -/
def PacketEvent.isStatus : PacketEvent → Bool
  | .statusReport _ _ _ _ _ => true
  | _ => false

/-- The mutable state of `NetworkThrottler` read and written by the per-packet
pipeline: the statistics counters, the bandwidth limiter, and the snapshot of
the `_throttling_enabled` flag. -/
structure ThrottlerState where
  stats : ThrottlingStatistics
  limiter : BandwidthLimiter
  throttling_enabled : Bool
  deriving DecidableEq

/-- `NetworkThrottler._should_drop_packet`, with the value produced by
`random.random()` (uniform in [0,1)) passed explicitly as `r`. -/
def should_drop_packet (cfg : ThrottlingConfig) (r : ℚ) : Bool :=
  decide (r < cfg.packet_drop_rate)

/-- `NetworkThrottler._apply_throttling(packet_size)` at wall-clock time
`now`: calls `BandwidthLimiter.throttle`, then sleeps the configured lag
delay when `lag_delay_ms > 0`.  Returns the new limiter state and the events
observed. -/
def apply_throttling (cfg : ThrottlingConfig) (limiter : BandwidthLimiter)
    (packet_size : ℕ) (now : ℚ) : BandwidthLimiter × List PacketEvent :=
  let res := limiter.throttle (packet_size : ℚ) now
  let evs :=
    if 0 < cfg.lag_delay_ms then
      [PacketEvent.throttleCall packet_size,
       PacketEvent.sleepDelay cfg.lag_delay_seconds]
    else
      [PacketEvent.throttleCall packet_size]
  (res.1, evs)

/-- `NetworkThrottler._update_status(throttling_active)`: emits a status
report when the processed counter is an exact multiple of
`status_update_interval`. -/
def update_status (cfg : ThrottlingConfig) (st : ThrottlerState)
    (throttling_active : Bool) (now : ℚ) : List PacketEvent :=
  if st.stats.processed_packets % cfg.status_update_interval = 0 then
    [PacketEvent.statusReport throttling_active st.stats.processed_packets
      st.stats.throttled_packets st.stats.dropped_packets
      (st.limiter.get_current_rate_kbps now)]
  else
    []

/-- `NetworkThrottler._process_packet(packet, windivert_handle)` for a packet
of `packet_size = len(packet.raw)` bytes, with the `random.random()` draw `r`
passed explicitly and the wall clock at `now`.  Returns the new state and the
trace of observable events, in order. -/
def process_packet (cfg : ThrottlingConfig) (st : ThrottlerState)
    (packet_size : ℕ) (r : ℚ) (now : ℚ) : ThrottlerState × List PacketEvent :=
  let stats1 := st.stats.increment_processed
  let should_throttle := st.throttling_enabled
  if should_throttle then
    let stats2 := stats1.increment_throttled
    if should_drop_packet cfg r then
      let stats3 := stats2.increment_dropped
      ({ st with stats := stats3 }, [])
    else
      let thr := apply_throttling cfg st.limiter packet_size now
      let st1 : ThrottlerState :=
        { st with stats := stats2, limiter := thr.1 }
      let statusEvs := update_status cfg st1 should_throttle now
      (st1, thr.2 ++ [PacketEvent.send] ++ statusEvs)
  else
    let st1 : ThrottlerState := { st with stats := stats1 }
    let statusEvs := update_status cfg st1 should_throttle now
    (st1, [PacketEvent.send] ++ statusEvs)

/-- `MAX_LISTED_PORTS` from `NetworkThrottler._packet_capture_context`. -/
def MAX_LISTED_PORTS : ℕ := 20

/-- The per-port condition string interpolated for each port of the target
port set in `_packet_capture_context` (the same text is rebuilt for the
limited-port fallback filter). -/
def portCondition (p : ℕ) : String :=
  "tcp.SrcPort == " ++ toString p ++ " or tcp.DstPort == " ++ toString p ++
    " or udp.SrcPort == " ++ toString p ++ " or udp.DstPort == " ++ toString p

/-- The precise filter shape the spec describes: source-or-destination port
equality, disjoined over the ports, for TCP and UDP. -/
def preciseFilter (ports : List ℕ) : String :=
  let sep := " or "
  "(tcp or udp) and (" ++ sep.intercalate (ports.map portCondition) ++ ")"

/-- The range-fallback filter shape the spec describes: destination port
within the configured range, for TCP or UDP. -/
def rangeFilter (startP endP : ℕ) : String :=
  "(tcp or udp) and ((tcp.DstPort >= " ++ toString startP ++
    " and tcp.DstPort <= " ++ toString endP ++ ") or (udp.DstPort >= " ++
    toString startP ++ " and udp.DstPort <= " ++ toString endP ++ "))"

/-- The initial filter string built at the top of
`NetworkThrottler._packet_capture_context` from `self._target_ports`
(given in set-iteration order) and the configured port range.  The string
concatenations transcribe the f-strings of the source. -/
def buildFilter (target_ports : List ℕ) (startP endP : ℕ) : String :=
  if target_ports ≠ [] ∧ target_ports.length ≤ MAX_LISTED_PORTS then
    let sep := " or "
    let port_conditions := sep.intercalate (target_ports.map (fun p =>
      "tcp.SrcPort == " ++ toString p ++ " or tcp.DstPort == " ++ toString p ++
        " or udp.SrcPort == " ++ toString p ++ " or udp.DstPort == " ++
        toString p))
    "(tcp or udp) and (" ++ port_conditions ++ ")"
  else
    "(tcp or udp) and ((tcp.DstPort >= " ++ toString startP ++
      " and tcp.DstPort <= " ++ toString endP ++ ") or (udp.DstPort >= " ++
      toString startP ++ " and udp.DstPort <= " ++ toString endP ++ "))"

/-- The filter of the last-resort attempt in `_packet_capture_context`. -/
def basicFilter : String := "tcp or udp"

/-- The sequence of capture-open attempts made by
`NetworkThrottler._packet_capture_context`, abstracting
`pydivert.WinDivert(f)` as the oracle `opens : String → Bool` (whether
opening capture with filter `f` succeeds) and abstracting the check
`"parameter is incorrect" in str(e)` on the first failure as the boolean
`msg_param_incorrect`.  The handler rebuilds the per-port condition text of
the precise filter, character for character, for the first five ports; that
rebuild is transcribed with `preciseFilter`.  Returns the list of filters
tried, in order, and
`some f` when capture finally opened with filter `f` (`none` when the error
is surfaced and capture does not start). -/
def packet_capture_attempts (target_ports : List ℕ) (startP endP : ℕ)
    (opens : String → Bool) (msg_param_incorrect : Bool) :
    List String × Option String :=
  let filter_str := buildFilter target_ports startP endP
  if opens filter_str then
    ([filter_str], some filter_str)
  else
    let rest :=
      if target_ports ≠ [] ∧ msg_param_incorrect = true then
        let limited_ports := target_ports.take 5
        let simple_filter := preciseFilter limited_ports
        if opens simple_filter then
          ([simple_filter], some simple_filter)
        else if opens basicFilter then
          ([simple_filter, basicFilter], some basicFilter)
        else
          ([simple_filter, basicFilter], none)
      else if opens basicFilter then
        ([basicFilter], some basicFilter)
      else
        ([basicFilter], none)
    (filter_str :: rest.1, rest.2)

/-- The control-plane state touched by `NetworkThrottler.shutdown`: the
`_shutdown_event` flag, the keyboard-handler running flag, and a count of
how many final-statistics reports `ThrottlingStatistics.log_final_stats`
has emitted. -/
structure ControlState where
  shutdown_event : Bool
  keyboard_running : Bool
  final_reports_logged : ℕ
  deriving DecidableEq

/-- `NetworkThrottler.shutdown()`: sets `_shutdown_event`, stops the keyboard
handler, and calls `ThrottlingStatistics.log_final_stats()` (which logs a
final-statistics report unconditionally on every call). -/
def shutdown (st : ControlState) : ControlState :=
  { shutdown_event := true
    keyboard_running := false
    final_reports_logged := st.final_reports_logged + 1 }

/-- One network connection of the target process as reported by the process
enumeration collaborator: optional local and remote ports. -/
structure Connection where
  laddr : Option ℕ
  raddr : Option ℕ

/-- Outcome of enumerating the connections of a process: success with a list
of connections, or one of the failures `ProcessManager.get_process_ports`
catches (`psutil.NoSuchProcess`, `psutil.AccessDenied`, any other error). -/
inductive PortEnumResult where
  | ok (conns : List Connection)
  | noSuchProcess
  | accessDenied
  | otherError

/-- `ProcessManager.get_process_ports(pid)`
(src/src/utils/process_manager.py): on success collects the local and remote
ports of every connection into a set; every caught failure degrades to the
empty set. -/
def get_process_ports (res : PortEnumResult) : Finset ℕ :=
  match res with
  | .ok conns =>
      conns.foldl (fun ports conn =>
        let ports1 := match conn.laddr with
          | some p => insert p ports
          | none => ports
        match conn.raddr with
        | some p => insert p ports1
        | none => ports1) ∅
  | .noSuchProcess => ∅
  | .accessDenied => ∅
  | .otherError => ∅

/-- The public operations of `BandwidthLimiter`, with every wall-clock read
passed explicitly. -/
inductive LimiterOp where
  | throttleOp (packet_size : ℚ) (now : ℚ)
  | canSendOp (packet_size : ℚ) (now : ℚ)
  | rateKbpsOp (now : ℚ)
  | resetOp (now : ℚ)
  | updateRateOp (new_max : ℚ)

/-- Whether an operation is `update_rate_limit`. -/
def LimiterOp.isUpdate : LimiterOp → Bool
  | .updateRateOp _ => true
  | _ => false

/-- State transition of one `BandwidthLimiter` operation
(`get_current_rate_kbps` reads but does not write the state). -/
def applyOp (st : BandwidthLimiter) : LimiterOp → BandwidthLimiter
  | .throttleOp s n => (st.throttle s n).1
  | .canSendOp s n => (st.can_send s n).1
  | .rateKbpsOp _ => st
  | .resetOp n => st.reset n
  | .updateRateOp r => st.update_rate_limit r

/-- One captured packet presented to the pipeline: the
`_throttling_enabled` snapshot taken for it, its size, the uniform draw, and
the wall-clock time. -/
structure PacketInput where
  enabled : Bool
  packet_size : ℕ
  r : ℚ
  now : ℚ

/-- One iteration of the main capture loop for claim purposes: the toggle
state observed for this packet is installed, then `_process_packet` runs. -/
def stepPacket (cfg : ThrottlingConfig) (st : ThrottlerState)
    (inp : PacketInput) : ThrottlerState :=
  (process_packet cfg { st with throttling_enabled := inp.enabled }
    inp.packet_size inp.r inp.now).1

/-- Runs the pipeline over a whole list of captured packets starting from a
fresh statistics object. -/
def runPipeline (cfg : ThrottlingConfig) (limiter0 : BandwidthLimiter)
    (inputs : List PacketInput) : ThrottlerState :=
  inputs.foldl (stepPacket cfg)
    { stats := ThrottlingStatistics.fresh
      limiter := limiter0
      throttling_enabled := false }

/-! ### Helper lemmas -/

/-- When the target port set is non-empty and within the listing bound, the
filter built at the top of `_packet_capture_context` is the precise per-port
filter. -/
lemma buildFilter_eq_preciseFilter (ports : List ℕ) (startP endP : ℕ)
    (h1 : ports ≠ []) (h2 : ports.length ≤ MAX_LISTED_PORTS) :
    buildFilter ports startP endP = preciseFilter ports := by
  unfold buildFilter preciseFilter portCondition
  rw [if_pos ⟨h1, h2⟩]

/-- When the target port set is empty or exceeds the listing bound, the
filter built is the range-fallback filter. -/
lemma buildFilter_eq_rangeFilter (ports : List ℕ) (startP endP : ℕ)
    (h : ¬(ports ≠ [] ∧ ports.length ≤ MAX_LISTED_PORTS)) :
    buildFilter ports startP endP = rangeFilter startP endP := by
  unfold buildFilter rangeFilter
  rw [if_neg h]

@[simp]
lemma refill_tokens_max (st : BandwidthLimiter) (now : ℚ) :
    (st.refill_tokens now).max_bytes_per_second = st.max_bytes_per_second := by
  simp only [BandwidthLimiter.refill_tokens]
  split <;> rfl

@[simp]
lemma refill_tokens_bucket (st : BandwidthLimiter) (now : ℚ) :
    (st.refill_tokens now).bucket_size = st.bucket_size := by
  simp only [BandwidthLimiter.refill_tokens]
  split <;> rfl

@[simp]
lemma refill_tokens_window_size (st : BandwidthLimiter) (now : ℚ) :
    (st.refill_tokens now).window_size = st.window_size := by
  simp only [BandwidthLimiter.refill_tokens]
  split <;> rfl

@[simp]
lemma refill_tokens_window_start (st : BandwidthLimiter) (now : ℚ) :
    (st.refill_tokens now).window_start = st.window_start := by
  simp only [BandwidthLimiter.refill_tokens]
  split <;> rfl

@[simp]
lemma refill_tokens_bytes_sent (st : BandwidthLimiter) (now : ℚ) :
    (st.refill_tokens now).bytes_sent = st.bytes_sent := by
  simp only [BandwidthLimiter.refill_tokens]
  split <;> rfl

@[simp]
lemma reset_window_max (st : BandwidthLimiter) (now : ℚ) :
    (st.reset_window_if_needed now).max_bytes_per_second =
      st.max_bytes_per_second := by
  simp only [BandwidthLimiter.reset_window_if_needed]
  split <;> rfl

@[simp]
lemma reset_window_bucket (st : BandwidthLimiter) (now : ℚ) :
    (st.reset_window_if_needed now).bucket_size = st.bucket_size := by
  simp only [BandwidthLimiter.reset_window_if_needed]
  split <;> rfl

@[simp]
lemma reset_window_window_size (st : BandwidthLimiter) (now : ℚ) :
    (st.reset_window_if_needed now).window_size = st.window_size := by
  simp only [BandwidthLimiter.reset_window_if_needed]
  split <;> rfl

@[simp]
lemma reset_window_tokens (st : BandwidthLimiter) (now : ℚ) :
    (st.reset_window_if_needed now).tokens = st.tokens := by
  simp only [BandwidthLimiter.reset_window_if_needed]
  split <;> rfl

/-- After `_reset_window_if_needed`, strictly less than a full window has
elapsed since `window_start` (assuming a positive window size). -/
lemma reset_window_elapsed_lt (st : BandwidthLimiter) (now : ℚ)
    (hw : 0 < st.window_size) :
    now - (st.reset_window_if_needed now).window_start < st.window_size := by
  simp only [BandwidthLimiter.reset_window_if_needed]
  split
  · simpa using hw
  · next h => simpa using lt_of_not_le h

/-- `_refill_tokens` leaves a full bucket full when the rate is
non-negative. -/
lemma refill_tokens_full (st : BandwidthLimiter) (now : ℚ)
    (h1 : st.tokens = st.bucket_size)
    (h3 : 0 ≤ st.max_bytes_per_second) :
    (st.refill_tokens now).tokens = st.bucket_size := by
  simp only [BandwidthLimiter.refill_tokens]
  split
  · next h =>
    simp only [h1]
    exact min_eq_left (by nlinarith)
  · simpa using h1

/-- Claim C2, written from the words of the spec sentence: on each call,
(a) `tokens := min(capacity, tokens + elapsedSinceLastRefill * capacity)` and
`lastRefill := now`; (b) reset the sliding window if a full window has
elapsed; (c) if `bytesSentInWindow + packetSize > capacity`, compute
`remaining`, and if positive suspend the caller for exactly `remaining` and
then reset the window at the post-suspension clock; (d) unconditionally add
`packetSize` to `bytesSentInWindow` — applied at the end of every path, so
the post-suspension count is written as `0 + packet_size`. -/
def throttle_claim_spec (st : BandwidthLimiter) (packet_size now : ℚ) :
    BandwidthLimiter × ℚ :=
  let capacity := st.max_bytes_per_second
  let stA : BandwidthLimiter := { st with
    tokens := min capacity (st.tokens + (now - st.last_refill) * capacity)
    last_refill := now }
  let stB : BandwidthLimiter :=
    if stA.window_size ≤ now - stA.window_start then
      { stA with window_start := now, bytes_sent := 0 }
    else stA
  if capacity < stB.bytes_sent + packet_size then
    let remaining := stB.window_size - (now - stB.window_start)
    if 0 < remaining then
      ({ stB with
          window_start := now + remaining
          bytes_sent := 0 + packet_size }, remaining)
    else ({ stB with bytes_sent := stB.bytes_sent + packet_size }, 0)
  else ({ stB with bytes_sent := stB.bytes_sent + packet_size }, 0)

/-- Under the limiter invariants (a bucket that is not over-full and a
monotone clock), `_refill_tokens` computes exactly the unconditional refill
formula of the spec. -/
lemma refill_tokens_spec (st : BandwidthLimiter) (now : ℚ)
    (hbucket : st.bucket_size = st.max_bytes_per_second)
    (htok : st.tokens ≤ st.bucket_size)
    (hmono : st.last_refill ≤ now) :
    st.refill_tokens now =
      { st with
        tokens := min st.max_bytes_per_second
          (st.tokens + (now - st.last_refill) * st.max_bytes_per_second)
        last_refill := now } := by
  have htok' : st.tokens ≤ st.max_bytes_per_second := hbucket ▸ htok
  simp only [BandwidthLimiter.refill_tokens]
  split
  · next h => rw [hbucket]
  · next h =>
    have he : now = st.last_refill := by
      have h1 := not_lt.mp h
      linarith
    subst he
    simp [min_eq_right htok']

/-- Unfolding of `throttle` on the no-wait path. -/
lemma throttle_eq_of_not_exceed (st : BandwidthLimiter) (s now : ℚ)
    (hcond : ¬ ((st.refill_tokens now).reset_window_if_needed
        now).max_bytes_per_second <
      ((st.refill_tokens now).reset_window_if_needed now).bytes_sent + s) :
    st.throttle s now =
      ({ (st.refill_tokens now).reset_window_if_needed now with
          bytes_sent :=
            ((st.refill_tokens now).reset_window_if_needed now).bytes_sent +
              s }, 0) := by
  simp only [BandwidthLimiter.throttle]
  rw [if_neg hcond]

/-- Unfolding of `throttle` on the wait path: the returned slept duration is
the remaining window time. -/
lemma throttle_eq_of_exceed (st : BandwidthLimiter) (s now : ℚ)
    (hcond : ((st.refill_tokens now).reset_window_if_needed
        now).max_bytes_per_second <
      ((st.refill_tokens now).reset_window_if_needed now).bytes_sent + s)
    (hrem : 0 < ((st.refill_tokens now).reset_window_if_needed
        now).window_size -
      (now -
        ((st.refill_tokens now).reset_window_if_needed now).window_start)) :
    (st.throttle s now).2 =
      ((st.refill_tokens now).reset_window_if_needed now).window_size -
        (now -
          ((st.refill_tokens now).reset_window_if_needed
            now).window_start) := by
  simp only [BandwidthLimiter.throttle]
  rw [if_pos hcond, if_pos hrem]

@[simp]
lemma throttle_fst_tokens (st : BandwidthLimiter) (s now : ℚ) :
    (st.throttle s now).1.tokens = (st.refill_tokens now).tokens := by
  simp only [BandwidthLimiter.throttle]
  split
  · split <;> simp
  · simp

@[simp]
lemma throttle_fst_bucket (st : BandwidthLimiter) (s now : ℚ) :
    (st.throttle s now).1.bucket_size = st.bucket_size := by
  simp only [BandwidthLimiter.throttle]
  split
  · split <;> simp
  · simp

@[simp]
lemma throttle_fst_max (st : BandwidthLimiter) (s now : ℚ) :
    (st.throttle s now).1.max_bytes_per_second = st.max_bytes_per_second := by
  simp only [BandwidthLimiter.throttle]
  split
  · split <;> simp
  · simp

/-- The state invariant of a limiter on which `update_rate_limit` has never
been called: the bucket is full, the bucket bound equals the configured
capacity, and the capacity is non-negative. -/
def LimiterInv (st : BandwidthLimiter) : Prop :=
  st.tokens = st.bucket_size ∧
    st.bucket_size = st.max_bytes_per_second ∧ 0 ≤ st.max_bytes_per_second

/-- Every operation other than `update_rate_limit` preserves `LimiterInv`
and the configured capacity. -/
lemma applyOp_inv (st : BandwidthLimiter) (op : LimiterOp)
    (h : LimiterInv st) (hop : op.isUpdate = false) :
    LimiterInv (applyOp st op) ∧
      (applyOp st op).max_bytes_per_second = st.max_bytes_per_second := by
  obtain ⟨h1, h2, h3⟩ := h
  cases op with
  | throttleOp s n =>
    refine ⟨⟨?_, ?_, ?_⟩, ?_⟩ <;>
      simp [applyOp, refill_tokens_full st n h1 h3, h2, h3]
  | canSendOp s n =>
    refine ⟨⟨?_, ?_, ?_⟩, ?_⟩ <;>
      simp [applyOp, BandwidthLimiter.can_send,
        refill_tokens_full st n h1 h3, h2, h3]
  | rateKbpsOp n => exact ⟨⟨h1, h2, h3⟩, rfl⟩
  | resetOp n =>
    exact ⟨⟨rfl, h2, h3⟩, rfl⟩
  | updateRateOp r => simp [LimiterOp.isUpdate] at hop

/-- `LimiterInv` and the capacity are preserved along any sequence of
operations that contains no `update_rate_limit`. -/
lemma foldl_applyOp_inv (ops : List LimiterOp) (st : BandwidthLimiter)
    (h : LimiterInv st) (hops : ∀ op ∈ ops, op.isUpdate = false) :
    LimiterInv (ops.foldl applyOp st) ∧
      (ops.foldl applyOp st).max_bytes_per_second =
        st.max_bytes_per_second := by
  induction ops generalizing st with
  | nil => exact ⟨h, rfl⟩
  | cons op rest ih =>
    have hop := hops op (List.mem_cons_self op rest)
    have hrest : ∀ o ∈ rest, o.isUpdate = false :=
      fun o ho => hops o (List.mem_cons_of_mem op ho)
    have step := applyOp_inv st op h hop
    have tailRes := ih (applyOp st op) step.1 hrest
    exact ⟨tailRes.1, tailRes.2.trans step.2⟩

@[simp]
lemma isStatus_throttleCall (n : ℕ) :
    (PacketEvent.throttleCall n).isStatus = false := rfl

@[simp]
lemma isStatus_sleepDelay (q : ℚ) :
    (PacketEvent.sleepDelay q).isStatus = false := rfl

@[simp]
lemma isStatus_send : PacketEvent.send.isStatus = false := rfl

@[simp]
lemma isStatus_statusReport (b : Bool) (p t d : ℕ) (q : ℚ) :
    (PacketEvent.statusReport b p t d q).isStatus = true := rfl

/-- The per-packet observable events (throttle calls, latency sleeps,
forwards — status reporting aside) exactly as claim C1 states them: enabled
and dropped → nothing; enabled and kept → throttle call, then the fixed
delay when positive, then the forward; disabled → just the forward. -/
def claim_pipeline_events (cfg : ThrottlingConfig) (enabled : Bool)
    (packet_size : ℕ) (r : ℚ) : List PacketEvent :=
  if enabled then
    if r < cfg.packet_drop_rate then []
    else
      [PacketEvent.throttleCall packet_size] ++
        (if 0 < cfg.lag_delay_ms then
          [PacketEvent.sleepDelay cfg.lag_delay_seconds]
        else []) ++
        [PacketEvent.send]
  else [PacketEvent.send]

/-- Counter bookkeeping of one `_process_packet` call: processed always
advances by one; throttled advances exactly when the enabled snapshot was
taken; dropped advances exactly when additionally the uniform draw fell
below the drop probability. -/
lemma process_packet_stats (cfg : ThrottlingConfig) (st : ThrottlerState)
    (packet_size : ℕ) (r : ℚ) (now : ℚ) :
    (process_packet cfg st packet_size r now).1.stats.processed_packets =
      st.stats.processed_packets + 1 ∧
    (process_packet cfg st packet_size r now).1.stats.throttled_packets =
      st.stats.throttled_packets +
        (if st.throttling_enabled then 1 else 0) ∧
    (process_packet cfg st packet_size r now).1.stats.dropped_packets =
      st.stats.dropped_packets +
        (if st.throttling_enabled ∧ r < cfg.packet_drop_rate then 1
        else 0) := by
  cases hin : st.throttling_enabled <;>
    by_cases hdrop : r < cfg.packet_drop_rate <;>
    simp [process_packet, should_drop_packet, apply_throttling, update_status,
      ThrottlingStatistics.increment_processed,
      ThrottlingStatistics.increment_throttled,
      ThrottlingStatistics.increment_dropped, hin, hdrop]

/-! ### Theorems for the frozen claims -/

/-- Claim C2: every `throttle(packetSize)` call performs, in order, the token
refill (a), the sliding-window reset (b), the over-capacity wait with
post-wait window reset (c), and the unconditional window accounting (d),
exactly as the spec sentence describes.  The hypotheses are the limiter
invariants: the bucket bound equals the configured capacity, the token count
does not exceed it, and the clock has not gone backwards since the last
refill. -/
theorem C2_throttle_follows_spec (st : BandwidthLimiter) (packet_size now : ℚ)
    (hbucket : st.bucket_size = st.max_bytes_per_second)
    (htok : st.tokens ≤ st.bucket_size)
    (hmono : st.last_refill ≤ now) :
    st.throttle packet_size now = throttle_claim_spec st packet_size now := by
  simp only [BandwidthLimiter.throttle, throttle_claim_spec]
  rw [refill_tokens_spec st now hbucket htok hmono]
  simp only [BandwidthLimiter.reset_window_if_needed]
  split <;> rfl

/-- Witness for claim C2 at a concrete input: a freshly initialised limiter
(8 bytes/s, 1 s window, created at time 0) throttling a 3-byte packet at
time 2. -/
theorem C2_throttle_follows_spec_witness :
    (BandwidthLimiter.init 8 1 0).bucket_size =
      (BandwidthLimiter.init 8 1 0).max_bytes_per_second ∧
    (BandwidthLimiter.init 8 1 0).tokens ≤
      (BandwidthLimiter.init 8 1 0).bucket_size ∧
    (BandwidthLimiter.init 8 1 0).last_refill ≤ (2 : ℚ) ∧
    (BandwidthLimiter.init 8 1 0).throttle 3 2 =
      throttle_claim_spec (BandwidthLimiter.init 8 1 0) 3 2 := by
  exact ⟨by decide, by decide, by decide,
    C2_throttle_follows_spec (BandwidthLimiter.init 8 1 0) 3 2
      (by decide) (by decide) (by decide)⟩

/-- Claim C5: for packet sizes within capacity, immediately after a
completed `throttle` call that did not suspend the caller, the window byte
count does not exceed the capacity. -/
theorem C5_no_wait_window_bound (st : BandwidthLimiter) (s now : ℚ)
    (hw : 0 < st.window_size)
    (hs : s ≤ st.max_bytes_per_second)
    (hnowait : (st.throttle s now).2 = 0) :
    (st.throttle s now).1.bytes_sent ≤ st.max_bytes_per_second := by
  have hrem : 0 < ((st.refill_tokens now).reset_window_if_needed
      now).window_size -
      (now -
        ((st.refill_tokens now).reset_window_if_needed now).window_start) := by
    have h1 := reset_window_elapsed_lt (st.refill_tokens now) now
      (by rw [refill_tokens_window_size]; exact hw)
    rw [reset_window_window_size]
    linarith
  by_cases hcond : ((st.refill_tokens now).reset_window_if_needed
      now).max_bytes_per_second <
      ((st.refill_tokens now).reset_window_if_needed now).bytes_sent + s
  · exfalso
    rw [throttle_eq_of_exceed st s now hcond hrem] at hnowait
    linarith
  · rw [throttle_eq_of_not_exceed st s now hcond]
    have h2 := not_lt.mp hcond
    have h3 : ((st.refill_tokens now).reset_window_if_needed
        now).max_bytes_per_second = st.max_bytes_per_second := by
      rw [reset_window_max, refill_tokens_max]
    show ((st.refill_tokens now).reset_window_if_needed now).bytes_sent + s ≤
      st.max_bytes_per_second
    linarith

/-- Claim C9: on a limiter on which `update_rate_limit` is never invoked,
`tokens = capacity` holds after every operation sequence, and `can_send`
then accepts every packet of size at most the capacity — the token bucket
never gates admission, regardless of how much traffic `throttle` has
accounted. -/
theorem C9_token_bucket_never_gates (rate wsize t0 : ℚ) (ops : List LimiterOp)
    (hrate : 0 ≤ rate) (hops : ∀ op ∈ ops, op.isUpdate = false) :
    (ops.foldl applyOp (BandwidthLimiter.init rate wsize t0)).tokens = rate ∧
    ∀ s now : ℚ, s ≤ rate →
      ((ops.foldl applyOp (BandwidthLimiter.init rate wsize t0)).can_send s
        now).2 = true := by
  have hinit : LimiterInv (BandwidthLimiter.init rate wsize t0) :=
    ⟨rfl, rfl, hrate⟩
  obtain ⟨⟨h1, h2, h3⟩, hmax⟩ := foldl_applyOp_inv ops _ hinit hops
  have hmax' : (ops.foldl applyOp
      (BandwidthLimiter.init rate wsize t0)).max_bytes_per_second = rate :=
    hmax
  refine ⟨by rw [h1, h2, hmax'], ?_⟩
  intro s now hs
  simp only [BandwidthLimiter.can_send, decide_eq_true_eq]
  rw [refill_tokens_full _ now h1 h3, h2, hmax']
  exact hs

/-- Witness for claim C9 at a concrete input: rate 8, a sequence of one
throttle, one advisory check, one rate read and one reset, then an admission
check for a 5-byte packet. -/
theorem C9_token_bucket_never_gates_witness :
    (0 : ℚ) ≤ 8 ∧
    (∀ op ∈ [LimiterOp.throttleOp 3 1, LimiterOp.canSendOp 2 2,
        LimiterOp.rateKbpsOp 3, LimiterOp.resetOp 4], op.isUpdate = false) ∧
    ([LimiterOp.throttleOp 3 1, LimiterOp.canSendOp 2 2,
        LimiterOp.rateKbpsOp 3, LimiterOp.resetOp 4].foldl applyOp
      (BandwidthLimiter.init 8 1 0)).tokens = 8 ∧
    (([LimiterOp.throttleOp 3 1, LimiterOp.canSendOp 2 2,
        LimiterOp.rateKbpsOp 3, LimiterOp.resetOp 4].foldl applyOp
      (BandwidthLimiter.init 8 1 0)).can_send 5 10).2 = true := by
  have hops : ∀ op ∈ [LimiterOp.throttleOp 3 1, LimiterOp.canSendOp 2 2,
      LimiterOp.rateKbpsOp 3, LimiterOp.resetOp 4], op.isUpdate = false := by
    intro op hop
    fin_cases hop <;> rfl
  have h := C9_token_bucket_never_gates 8 1 0
    [LimiterOp.throttleOp 3 1, LimiterOp.canSendOp 2 2,
      LimiterOp.rateKbpsOp 3, LimiterOp.resetOp 4] (by decide) hops
  exact ⟨by decide, hops, h.1, h.2 5 10 (by decide)⟩

/-- Witness for claim C5 at a concrete input: a fresh limiter (100 bytes/s),
one 50-byte packet at time 0; the call does not sleep and the window count
stays within capacity. -/
theorem C5_no_wait_window_bound_witness :
    (0 : ℚ) < (BandwidthLimiter.init 100 1 0).window_size ∧
    (50 : ℚ) ≤ (BandwidthLimiter.init 100 1 0).max_bytes_per_second ∧
    ((BandwidthLimiter.init 100 1 0).throttle 50 0).2 = 0 ∧
    ((BandwidthLimiter.init 100 1 0).throttle 50 0).1.bytes_sent ≤
      (BandwidthLimiter.init 100 1 0).max_bytes_per_second := by
  have hsleep : ((BandwidthLimiter.init 100 1 0).throttle 50 0).2 = 0 := by
    norm_num [BandwidthLimiter.throttle, BandwidthLimiter.refill_tokens,
      BandwidthLimiter.reset_window_if_needed, BandwidthLimiter.init]
  exact ⟨by decide, by decide, hsleep,
    C5_no_wait_window_bound (BandwidthLimiter.init 100 1 0) 50 0
      (by decide) (by decide) hsleep⟩

/-- Claim C4: a non-empty port set of size at most 20 yields the precise
source-or-destination equality filter; an empty port set or one with more
than 20 ports yields the destination-port range filter.  In particular a
21-port set yields the range filter and a 20-port set the precise filter. -/
theorem C4_filter_selection (ports : List ℕ) (startP endP : ℕ) :
    (buildFilter ports startP endP =
      if ports ≠ [] ∧ ports.length ≤ MAX_LISTED_PORTS then preciseFilter ports
      else rangeFilter startP endP) ∧
    buildFilter (List.range 21) startP endP = rangeFilter startP endP ∧
    buildFilter (List.range 20) startP endP =
      preciseFilter (List.range 20) := by
  refine ⟨?_, ?_, ?_⟩
  · by_cases h : ports ≠ [] ∧ ports.length ≤ MAX_LISTED_PORTS
    · rw [if_pos h, buildFilter_eq_preciseFilter ports startP endP h.1 h.2]
    · rw [if_neg h, buildFilter_eq_rangeFilter ports startP endP h]
  · exact buildFilter_eq_rangeFilter _ _ _ (by decide)
  · exact buildFilter_eq_preciseFilter _ _ _ (by decide) (by decide)

/-- Claim C8: port enumeration failures for a vanished (`NoSuchProcess`) or
access-denied process yield the empty port set rather than an error, and with
an empty port set the capture filter built is the fallback range filter, so
the run proceeds. -/
theorem C8_port_enum_degrades (startP endP : ℕ) :
    get_process_ports PortEnumResult.noSuchProcess = ∅ ∧
    get_process_ports PortEnumResult.accessDenied = ∅ ∧
    buildFilter [] startP endP = rangeFilter startP endP := by
  refine ⟨rfl, rfl, ?_⟩
  exact buildFilter_eq_rangeFilter _ _ _ (by simp)

/-- Claim C3: when capture with the precise per-port filter fails to open and
the failure signals a rejected filter, the attempts proceed in exactly this
order: the precise filter, then the filter over at most the first five
ports, then the bare basic filter; the error is surfaced (no capture) only
when that final filter also fails. -/
theorem C3_escalation (ports : List ℕ) (startP endP : ℕ)
    (opens : String → Bool) (msg_param_incorrect : Bool)
    (hne : ports ≠ []) (hlen : ports.length ≤ MAX_LISTED_PORTS)
    (hfail : opens (preciseFilter ports) = false)
    (hmsg : msg_param_incorrect = true) :
    packet_capture_attempts ports startP endP opens msg_param_incorrect =
      if opens (preciseFilter (ports.take 5)) then
        ([preciseFilter ports, preciseFilter (ports.take 5)],
          some (preciseFilter (ports.take 5)))
      else if opens basicFilter then
        ([preciseFilter ports, preciseFilter (ports.take 5), basicFilter],
          some basicFilter)
      else
        ([preciseFilter ports, preciseFilter (ports.take 5), basicFilter],
          none) := by
  have hbf := buildFilter_eq_preciseFilter ports startP endP hne hlen
  by_cases h5 : opens (preciseFilter (ports.take 5)) = true <;>
    by_cases hb : opens basicFilter = true <;>
    simp [packet_capture_attempts, hbf, hfail, hne, hmsg, h5, hb]

set_option maxRecDepth 10000 in
/-- Witness for claim C3 at a concrete input: two target ports, the precise
filter and the five-port filter both fail to open, the basic filter opens. -/
theorem C3_escalation_witness :
    ([80, 443] : List ℕ) ≠ [] ∧ ([80, 443] : List ℕ).length ≤ 20 ∧
    (fun f => decide (f = basicFilter)) (preciseFilter [80, 443]) = false ∧
    packet_capture_attempts [80, 443] 49000 65000
        (fun f => decide (f = basicFilter)) true =
      ([preciseFilter [80, 443], preciseFilter [80, 443], basicFilter],
        some basicFilter) := by
  refine ⟨by decide, by decide, by decide, ?_⟩
  rw [C3_escalation [80, 443] 49000 65000 (fun f => decide (f = basicFilter))
    true (by decide) (by decide) (by decide) rfl]
  decide

/-- Claim C1: for every captured packet, the pipeline increments processed;
when throttling is enabled it increments throttled and, on a draw below the
drop probability, increments dropped and emits neither a throttle call nor a
send; otherwise it calls the rate limiter with the packet size, sleeps the
fixed delay when positive, and forwards; when throttling is disabled the
packet is forwarded with no throttled/dropped increment and no throttle or
delay call.  The limiter state changes exactly on the throttled-and-kept
path. -/
theorem C1_pipeline_per_packet (cfg : ThrottlingConfig) (st : ThrottlerState)
    (packet_size : ℕ) (r : ℚ) (now : ℚ) :
    ((process_packet cfg st packet_size r now).2.filter
        (fun e => !e.isStatus) =
      claim_pipeline_events cfg st.throttling_enabled packet_size r) ∧
    (process_packet cfg st packet_size r now).1.stats.processed_packets =
      st.stats.processed_packets + 1 ∧
    (process_packet cfg st packet_size r now).1.stats.throttled_packets =
      st.stats.throttled_packets +
        (if st.throttling_enabled then 1 else 0) ∧
    (process_packet cfg st packet_size r now).1.stats.dropped_packets =
      st.stats.dropped_packets +
        (if st.throttling_enabled ∧ r < cfg.packet_drop_rate then 1
        else 0) ∧
    (process_packet cfg st packet_size r now).1.limiter =
      (if st.throttling_enabled ∧ ¬ r < cfg.packet_drop_rate then
        (st.limiter.throttle (packet_size : ℚ) now).1
      else st.limiter) := by
  obtain ⟨hp, ht, hd⟩ := process_packet_stats cfg st packet_size r now
  refine ⟨?_, hp, ht, hd, ?_⟩
  · cases hin : st.throttling_enabled <;>
      by_cases hdrop : r < cfg.packet_drop_rate <;>
      by_cases hlag : 0 < cfg.lag_delay_ms <;>
      simp [process_packet, claim_pipeline_events, should_drop_packet,
        apply_throttling, update_status, PacketEvent.isStatus, hin, hdrop,
        hlag]
  · cases hin : st.throttling_enabled <;>
      by_cases hdrop : r < cfg.packet_drop_rate <;>
      simp [process_packet, should_drop_packet, apply_throttling,
        update_status, hin, hdrop]

/-- Claim C6 counterexample: configuration with status interval 1 and drop
probability 1, throttling enabled, one packet processed and dropped — its
processed count (1) is an exact multiple of the interval, yet the event
trace contains no status report, contradicting the claim for dropped
packets. -/
theorem C6_counterexample_dropped_packet_no_status :
    (process_packet ⟨1, 0, 1, 49000, 65000⟩
        ⟨ThrottlingStatistics.fresh, BandwidthLimiter.init 8 1 0, true⟩
        100 0 0).1.stats.processed_packets % (1 : ℕ) = 0 ∧
    (process_packet ⟨1, 0, 1, 49000, 65000⟩
        ⟨ThrottlingStatistics.fresh, BandwidthLimiter.init 8 1 0, true⟩
        100 0 0).1.stats.dropped_packets = 1 ∧
    (process_packet ⟨1, 0, 1, 49000, 65000⟩
        ⟨ThrottlingStatistics.fresh, BandwidthLimiter.init 8 1 0, true⟩
        100 0 0).2.filter PacketEvent.isStatus = [] := by
  refine ⟨?_, ?_, ?_⟩ <;>
    simp [process_packet, should_drop_packet, update_status,
      ThrottlingStatistics.fresh, ThrottlingStatistics.increment_processed,
      ThrottlingStatistics.increment_throttled,
      ThrottlingStatistics.increment_dropped]

/-- Claim C6 as amended: a status report (with the current mode, the
cumulative counters, and the instantaneous rate) is emitted exactly on
packets that are forwarded — passthrough packets and throttled-but-kept
packets — whose processed count is an exact multiple of the configured
interval; dropped packets never emit a status report, even at an exact
multiple. -/
theorem C6_status_reports_on_forwarded_packets (cfg : ThrottlingConfig)
    (st : ThrottlerState) (packet_size : ℕ) (r : ℚ) (now : ℚ) :
    (process_packet cfg st packet_size r now).2.filter PacketEvent.isStatus =
      if st.throttling_enabled ∧ r < cfg.packet_drop_rate then []
      else if (st.stats.processed_packets + 1) %
          cfg.status_update_interval = 0 then
        [PacketEvent.statusReport st.throttling_enabled
          (st.stats.processed_packets + 1)
          (st.stats.throttled_packets +
            (if st.throttling_enabled then 1 else 0))
          st.stats.dropped_packets
          ((if st.throttling_enabled then
              (st.limiter.throttle (packet_size : ℚ) now).1
            else st.limiter).get_current_rate_kbps now)]
      else [] := by
  cases hin : st.throttling_enabled <;>
    by_cases hdrop : r < cfg.packet_drop_rate <;>
    by_cases hlag : 0 < cfg.lag_delay_ms <;>
    by_cases hmod : (st.stats.processed_packets + 1) %
        cfg.status_update_interval = 0 <;>
    simp [process_packet, should_drop_packet, apply_throttling,
      update_status, ThrottlingStatistics.increment_processed,
      ThrottlingStatistics.increment_throttled, hin, hdrop, hlag, hmod]

/-- Claim C7 counterexample: from a running control state, one shutdown
logs one final-statistics report, and a second shutdown logs a second one —
the code emits a duplicate final report on repeated invocation. -/
theorem C7_counterexample_double_shutdown :
    (shutdown (shutdown ⟨false, true, 0⟩)).final_reports_logged = 2 ∧
    (shutdown ⟨false, true, 0⟩).final_reports_logged = 1 := by
  decide

/-- Claim C7 as amended: shutdown is idempotent on the terminal control
state — the second invocation leaves the shutdown flag set and the key
listener stopped, exactly as after the first — but each invocation logs a
final-statistics report, so two invocations produce two reports. -/
theorem C7_shutdown_idempotent_state_duplicate_report (st : ControlState) :
    (shutdown (shutdown st)).shutdown_event = (shutdown st).shutdown_event ∧
    (shutdown (shutdown st)).keyboard_running =
      (shutdown st).keyboard_running ∧
    (shutdown st).shutdown_event = true ∧
    (shutdown st).keyboard_running = false ∧
    (shutdown (shutdown st)).final_reports_logged =
      st.final_reports_logged + 2 := by
  simp [shutdown]

/-- One pipeline step preserves the counter inequalities. -/
lemma stepPacket_counters (cfg : ThrottlingConfig) (st : ThrottlerState)
    (inp : PacketInput)
    (h1 : st.stats.dropped_packets ≤ st.stats.throttled_packets)
    (h2 : st.stats.throttled_packets ≤ st.stats.processed_packets) :
    (stepPacket cfg st inp).stats.dropped_packets ≤
      (stepPacket cfg st inp).stats.throttled_packets ∧
    (stepPacket cfg st inp).stats.throttled_packets ≤
      (stepPacket cfg st inp).stats.processed_packets := by
  obtain ⟨hp, ht, hd⟩ := process_packet_stats cfg
    { st with throttling_enabled := inp.enabled } inp.packet_size inp.r inp.now
  unfold stepPacket
  rw [hp, ht, hd]
  constructor <;> split_ifs <;> simp_all <;> omega

/-- Claim C10: starting from a fresh statistics object, after any sequence
of per-packet pipeline steps, dropped ≤ throttled ≤ processed. -/
theorem C10_counter_inequalities (cfg : ThrottlingConfig)
    (limiter0 : BandwidthLimiter) (inputs : List PacketInput) :
    (runPipeline cfg limiter0 inputs).stats.dropped_packets ≤
      (runPipeline cfg limiter0 inputs).stats.throttled_packets ∧
    (runPipeline cfg limiter0 inputs).stats.throttled_packets ≤
      (runPipeline cfg limiter0 inputs).stats.processed_packets := by
  have main : ∀ (l : List PacketInput) (st : ThrottlerState),
      st.stats.dropped_packets ≤ st.stats.throttled_packets →
      st.stats.throttled_packets ≤ st.stats.processed_packets →
      (l.foldl (stepPacket cfg) st).stats.dropped_packets ≤
        (l.foldl (stepPacket cfg) st).stats.throttled_packets ∧
      (l.foldl (stepPacket cfg) st).stats.throttled_packets ≤
        (l.foldl (stepPacket cfg) st).stats.processed_packets := by
    intro l
    induction l with
    | nil => intro st h1 h2; exact ⟨h1, h2⟩
    | cons a rest ih =>
      intro st h1 h2
      have hstep := stepPacket_counters cfg st a h1 h2
      exact ih (stepPacket cfg st a) hstep.1 hstep.2
  exact main inputs _ le_rfl le_rfl

end ThrottlerModel
